import Mathlib

/-!
Verification of the THY maintenance-system core (src/logic.py and the
duplicated logic functions in src/app.py) against its natural-language
specification.

Modelling conventions:
* Python floats are modelled as exact rationals (`Rat`).  Every concrete
  value evaluated in a theorem below is far from a binary-float rounding
  boundary, so the rational model agrees with the float computation there.
* Python's `round(x, 1)` (round-half-to-even) is `pyRound1`, and `int(x)`
  (truncation toward zero) is `pyInt`.
* The global `random` module is modelled by explicit state passing through
  a `RandomLib` interface: `randomFn` is `random.random()`, `randint13Fn`
  is `random.randint(1, 3)`, `choice3Fn` is `random.choice` on a 3-element
  list, and `seedFn` is `random.seed(n)`.  The Mersenne-Twister backend
  itself stays abstract behind this interface.
* `datetime.strptime(s, "%Y-%m-%d")`, date subtraction and
  `strftime("%Y-%m-%d")` are modelled by `strptime`, proleptic-Gregorian
  ordinal arithmetic (`days_from_civil` / `civil_from_days`) and
  `formatOrdinal`.
* Python exceptions (KeyError on a missing dict key, ValueError from
  strptime) are modelled by `Except CalcError`; the error names follow the
  spec's taxonomy (`MissingField`, `InvalidDateFormat`).
-/

namespace THY

set_option maxRecDepth 4000

/-- Severity levels, from `MaintenanceStatusLevel` in src/logic.py. -/
inductive MaintenanceStatusLevel where
  | OK
  | WARNING
  | CRITICAL
  | DEFERRED
  | IN_MAINTENANCE
deriving DecidableEq

/-- Non-routine finding kinds, from `NonRoutineFindingType` in src/logic.py. -/
inductive NonRoutineFindingType where
  | NONE
  | CORROSION
  | FATIGUE_CRACK
  | SYSTEM_FAILURE
  | STRUCTURAL_DAMAGE
deriving DecidableEq

/-- The `NonRoutineFinding` dataclass from src/logic.py (defaults included). -/
structure NonRoutineFinding where
  has_finding : Bool := false
  finding_type : NonRoutineFindingType := .NONE
  extra_days : Int := 0
  description : String := ""
  academic_reference : String := ""
deriving DecidableEq

/-- The `MaintenanceStatus` dataclass from src/logic.py. -/
structure MaintenanceStatus where
  check_type : String
  remaining_fh : Option Rat
  remaining_fc : Option Rat
  remaining_days : Int
  progress_percent : Rat
  status : MaintenanceStatusLevel
  action_required : Bool
  next_due_date : String
  description : String
  base_duration_days : Int
  adjusted_duration_days : Int
  non_routine_finding : NonRoutineFinding := {}
  is_deferred : Bool := false
  deferral_reason : String := ""
  academic_note : String := ""
deriving DecidableEq

/-- The `HangarStatus` dataclass from src/logic.py, with the source's default
field values (`HANGAR_CAPACITY` is wide=5, narrow=12, total=15). -/
structure HangarStatus where
  wide_body_count : Int := 0
  narrow_body_count : Int := 0
  total_count : Int := 0
  wide_body_available : Int := 5
  narrow_body_available : Int := 12
  utilization_percent : Rat := 0
  is_full : Bool := false
deriving DecidableEq

/-- Error taxonomy for the modelled Python exceptions: `InvalidDateFormat`
is strptime's ValueError, `MissingField` is a KeyError on the aircraft
dict. -/
inductive CalcError where
  | InvalidDateFormat
  | MissingField (key : String)
deriving DecidableEq

/-- Python `round(x * 10) / 10` helper: round-half-to-even on a rational. -/
def roundHalfEven (x : Rat) : Int :=
  let f := x.floor
  let frac := x - f
  if frac < 1 / 2 then f
  else if 1 / 2 < frac then f + 1
  else if f % 2 = 0 then f else f + 1

/-- Python `round(x, 1)`. -/
def pyRound1 (x : Rat) : Rat := (roundHalfEven (x * 10) : Rat) / 10

/-- Python `int(x)`: truncation toward zero. -/
def pyInt (x : Rat) : Int := if 0 ≤ x then x.floor else x.ceil

/-- Gregorian leap-year test. -/
def isLeapYear (y : Int) : Bool := y % 4 == 0 && (y % 100 != 0 || y % 400 == 0)

/-- Days in a Gregorian month. -/
def daysInMonth (y m : Int) : Int :=
  if m = 2 then (if isLeapYear y then 29 else 28)
  else if m = 4 ∨ m = 6 ∨ m = 9 ∨ m = 11 then 30
  else 31

/-- A calendar date as parsed by `datetime.strptime(s, "%Y-%m-%d")`. -/
structure SimpleDate where
  year : Int
  month : Int
  day : Int
deriving DecidableEq

/-- Split a character list at every dash. -/
def splitDash : List Char → List (List Char)
  | [] => [[]]
  | c :: rest =>
    let r := splitDash rest
    if c = '-' then [] :: r
    else
      match r with
      | [] => [[c]]
      | h :: t => (c :: h) :: t

/-- Numeric value of a digit string. -/
def digitsToNat (cs : List Char) : Nat :=
  cs.foldl (fun a c => a * 10 + (c.toNat - 48)) 0

/-- Model of `datetime.strptime(s, "%Y-%m-%d")`: the year is exactly four digits,
month and day are one or two digits, and the values must form a valid
Gregorian date (datetime validates the day against the month length and
rejects year 0). -/
def strptime (s : String) : Option SimpleDate :=
  match splitDash s.data with
  | [ys, ms, ds] =>
    if ys.all Char.isDigit && ms.all Char.isDigit && ds.all Char.isDigit
        && ys.length == 4
        && decide (1 ≤ ms.length) && ms.length ≤ 2
        && decide (1 ≤ ds.length) && ds.length ≤ 2 then
      let y : Int := digitsToNat ys
      let m : Int := digitsToNat ms
      let d : Int := digitsToNat ds
      if 1 ≤ y ∧ 1 ≤ m ∧ m ≤ 12 ∧ 1 ≤ d ∧ d ≤ daysInMonth y m then
        some ⟨y, m, d⟩
      else none
    else none
  | _ => none

/-- Proleptic-Gregorian day number of a date (days since 1970-01-01),
matching Python's date ordinal arithmetic up to a constant offset. -/
def days_from_civil (dt : SimpleDate) : Int :=
  let y := if dt.month ≤ 2 then dt.year - 1 else dt.year
  let era := Int.fdiv y 400
  let yoe := y - era * 400
  let mp := Int.emod (dt.month + 9) 12
  let doy := Int.fdiv (153 * mp + 2) 5 + dt.day - 1
  let doe := yoe * 365 + Int.fdiv yoe 4 - Int.fdiv yoe 100 + doy
  era * 146097 + doe - 719468

/-- Inverse of `days_from_civil`. -/
def civil_from_days (z0 : Int) : SimpleDate :=
  let z := z0 + 719468
  let era := Int.fdiv z 146097
  let doe := z - era * 146097
  let yoe := Int.fdiv (doe - Int.fdiv doe 1460 + Int.fdiv doe 36524 - Int.fdiv doe 146096) 365
  let y := yoe + era * 400
  let doy := doe - (365 * yoe + Int.fdiv yoe 4 - Int.fdiv yoe 100)
  let mp := Int.fdiv (5 * doy + 2) 153
  let d := doy - Int.fdiv (153 * mp + 2) 5 + 1
  let m := if mp < 10 then mp + 3 else mp - 9
  ⟨if m ≤ 2 then y + 1 else y, m, d⟩

/-- Zero-pad a nonnegative integer to the given width. -/
def padInt (width : Nat) (n : Int) : String :=
  let s := toString n.toNat
  String.mk (List.replicate (width - s.length) '0') ++ s

/-- Format a day number like `strftime("%Y-%m-%d")`. -/
def formatOrdinal (z : Int) : String :=
  let dt := civil_from_days z
  padInt 4 dt.year ++ "-" ++ padInt 2 dt.month ++ "-" ++ padInt 2 dt.day

/-- Interface of the `random` module operations used by the source, with
the generator state `σ` passed explicitly: `seedFn` is `random.seed(n)`,
`randomFn` is `random.random()` (a value in [0,1)), `randint13Fn` is
`random.randint(1, 3)` (the source's min/max delay days), `choice3Fn` is
the index drawn by `random.choice` on a 3-element list.  CPython's
Mersenne Twister is one instance of this interface; the claims below are
stated over the interface. -/
structure RandomLib (σ : Type) where
  seedFn : Nat → σ
  randomFn : σ → Rat × σ
  randint13Fn : σ → Int × σ
  choice3Fn : σ → Fin 3 × σ

/-- Model of `simulate_non_routine_finding(seed=None)` from src/logic.py: optionally
reseed, draw one uniform variate, and with probability 0.15 produce a
finding whose kind comes from the weighted sub-distribution
(corrosion 0.08, fatigue 0.05, system failure 0.02, otherwise structural
damage) and whose extra delay is `randint(1, 3)`. -/
def simulate_non_routine_finding {σ : Type} (R : RandomLib σ) (seed : Option Nat)
    (s0 : σ) : NonRoutineFinding × σ :=
  let s := match seed with
    | some n => R.seedFn n
    | none => s0
  let (r, s) := R.randomFn s
  if r < 15 / 100 then
    let (roll, s) := R.randomFn s
    let (ftype, desc) :=
      if roll < 8 / 100 then
        (NonRoutineFindingType.CORROSION,
         "Korozyon tespit edildi (Corrosion detected in structural components)")
      else if roll < 8 / 100 + 5 / 100 then
        (NonRoutineFindingType.FATIGUE_CRACK,
         "Yorulma çatlağı tespit edildi (Fatigue crack found during NDT inspection)")
      else if roll < 8 / 100 + 5 / 100 + 2 / 100 then
        (NonRoutineFindingType.SYSTEM_FAILURE,
         "Sistem arızası tespit edildi (System malfunction during functional test)")
      else
        (NonRoutineFindingType.STRUCTURAL_DAMAGE,
         "Yapısal hasar tespit edildi (Minor structural damage requiring repair)")
    let (extra, s) := R.randint13Fn s
    ({ has_finding := true, finding_type := ftype, extra_days := extra,
       description := desc,
       academic_reference := "Callewaert et al. (2017), Hollander (2025)" }, s)
  else ({}, s)

/-- The `finding_types` list of `simulate_non_routine_finding` in
src/app.py. -/
def findingTypesApp : List (NonRoutineFindingType × String) :=
  [(NonRoutineFindingType.CORROSION,
    "Korozyon tespit edildi - Corrosion detected in structural components"),
   (NonRoutineFindingType.FATIGUE_CRACK,
    "Yorulma çatlağı tespit edildi - Fatigue crack found during NDT"),
   (NonRoutineFindingType.SYSTEM_FAILURE,
    "Sistem arızası tespit edildi - System malfunction detected")]

/-- Model of `simulate_non_routine_finding(aircraft_tail)` from src/app.py: it
reseeds the global generator with `hash(aircraft_tail) % 2**32` and then
draws.  `pyhash` models the interpreter's built-in `hash` on strings,
which CPython salts per process; it is therefore an explicit parameter
(one value per interpreter process).  Only the returned finding is
observable to callers, so the final generator state is dropped. -/
def simulate_non_routine_finding_app {σ : Type} (R : RandomLib σ)
    (pyhash : String → Nat) (aircraft_tail : String) : NonRoutineFinding :=
  let s := R.seedFn (pyhash aircraft_tail % 2 ^ 32)
  let (r, s) := R.randomFn s
  if r < 15 / 100 then
    let (i, s) := R.choice3Fn s
    let (ftype, desc) := findingTypesApp.get ⟨i.1, i.2⟩
    let (extra, _) := R.randint13Fn s
    { has_finding := true, finding_type := ftype, extra_days := extra,
      description := desc }
  else {}

/-- One row of the fleet DataFrame, restricted to the two columns the
hangar functions read (`Durum`, `Kategori`). -/
structure FleetRow where
  kategori : String
  durum : String
deriving DecidableEq

/-- The `df[df["Durum"] == "Bakımda"]` filter of `calculate_hangar_status`. -/
def maintRows (df : List FleetRow) : List FleetRow :=
  df.filter (fun r => r.durum == "Bakımda")

/-- Wide-body-or-cargo rows currently in maintenance. -/
def wideBodyMaintCount (df : List FleetRow) : Int :=
  ((maintRows df).filter (fun r => r.kategori == "WIDE" || r.kategori == "CARGO")).length

/-- Narrow-body rows currently in maintenance. -/
def narrowBodyMaintCount (df : List FleetRow) : Int :=
  ((maintRows df).filter (fun r => r.kategori == "NARROW")).length

/-- All rows currently in maintenance. -/
def totalMaintCount (df : List FleetRow) : Int :=
  ((maintRows df).length : Int)

/-- Model of `calculate_hangar_status` from src/logic.py: `is_full` holds when the
wide-body count reaches the wide-body capacity (5) OR the total count
reaches the total capacity (15); the available-slot fields are plain
capacity minus count. -/
def calculate_hangar_status (df : List FleetRow) : HangarStatus :=
  let wide := wideBodyMaintCount df
  let narrow := narrowBodyMaintCount df
  let total := totalMaintCount df
  { wide_body_count := wide, narrow_body_count := narrow, total_count := total,
    wide_body_available := 5 - wide, narrow_body_available := 12 - narrow,
    utilization_percent := pyRound1 ((total : Rat) / 15 * 100),
    is_full := decide (5 ≤ wide ∨ 15 ≤ total) }

/-- Variant of `calculate_hangar_status` as duplicated in src/app.py: identical except that
`is_full` is gated solely on the wide-body count. -/
def calculate_hangar_status_app (df : List FleetRow) : HangarStatus :=
  let wide := wideBodyMaintCount df
  let narrow := narrowBodyMaintCount df
  let total := totalMaintCount df
  { wide_body_count := wide, narrow_body_count := narrow, total_count := total,
    wide_body_available := 5 - wide, narrow_body_available := 12 - narrow,
    utilization_percent := pyRound1 ((total : Rat) / 15 * 100),
    is_full := decide (5 ≤ wide) }

/-- Model of `check_hangar_availability` from src/logic.py. -/
def check_hangar_availability (hangar_status : HangarStatus)
    (aircraft_category : String) : Bool × String :=
  if aircraft_category = "WIDE" ∨ aircraft_category = "CARGO" then
    if hangar_status.wide_body_available ≤ 0 then
      (false, "Wide-body hangar kapasitesi dolu (5/5). Ref: Kowalski (2021)")
    else
      (true, "Wide-body slot müsait (" ++ toString hangar_status.wide_body_available ++ " boş)")
  else
    if hangar_status.narrow_body_available ≤ 0 then
      (false, "Narrow-body hangar kapasitesi dolu (12/12). Ref: Kowalski (2021)")
    else
      (true, "Narrow-body slot müsait (" ++ toString hangar_status.narrow_body_available ++ " boş)")

/-- Model of `get_status_level` from src/logic.py (identical in src/app.py). -/
def get_status_level (progress : Rat) : MaintenanceStatusLevel :=
  if progress ≥ 90 then .CRITICAL
  else if progress ≥ 75 then .WARNING
  else .OK

/-- The `aircraft_data` dict, restricted to the keys
`calculate_maintenance_status` reads.  Each field is optional because a
Python dict may lack the key (KeyError is modelled as
`CalcError.MissingField`). -/
structure AircraftData where
  kuyruk_no : Option String
  kategori : Option String
  son_bakim_tarihi : Option String
  son_d_check_tarihi : Option String
  son_bakimdan_beri_fh : Option Rat
  son_bakimdan_beri_fc : Option Rat
  gunluk_ort_fh : Option Rat
deriving DecidableEq

/-- Dict lookup `aircraft_data[key]`: a missing key raises
(`MissingField`). -/
def getField {α : Type} (v : Option α) (key : String) : Except CalcError α :=
  match v with
  | some x => .ok x
  | none => .error (.MissingField key)

/-- Parse a date string to a day number; a parse failure
raises (`InvalidDateFormat`). -/
def parseDateE (s : String) : Except CalcError Int :=
  match strptime s with
  | some dt => .ok (days_from_civil dt)
  | none => .error .InvalidDateFormat

/-- The values read from the aircraft dict at the head of
`calculate_maintenance_status` (src/logic.py lines 370-387). -/
structure ParsedInput where
  current_dt : Int
  last_maint : Int
  last_d : Int
  daily_fh : Rat
  a_fh_used : Rat
  a_fc_used : Rat
deriving DecidableEq

/-- Date parsing and dict accesses of `calculate_maintenance_status`, in
source order; the first failure aborts the whole evaluation. -/
def parse_inputs (ad : AircraftData) (current_date : String) :
    Except CalcError ParsedInput := do
  let cdt ← parseDateE current_date
  let lm ← getField ad.son_bakim_tarihi ("Son Bakım Tarihi")
  let lmd ← parseDateE lm
  let ld ← getField ad.son_d_check_tarihi ("Son D-Check Tarihi")
  let ldd ← parseDateE ld
  let daily ← getField ad.gunluk_ort_fh ("Günlük Ort. FH")
  let afh ← getField ad.son_bakimdan_beri_fh ("Son Bakımdan Beri FH")
  let afc ← getField ad.son_bakimdan_beri_fc ("Son Bakımdan Beri FC")
  .ok ⟨cdt, lmd, ldd, daily, afh, afc⟩

/-- A-check progress: `max(FH_used/600, FC_used/400) * 100` (src/logic.py
lines 394-396). -/
def a_progress_of (a_fh_used a_fc_used : Rat) : Rat :=
  max (a_fh_used / 600 * 100) (a_fc_used / 400 * 100)

/-- B-check progress: `min(days_since_last_maint/180 * 100, 100)`. -/
def b_progress_of (days_since_last_maint : Int) : Rat :=
  min ((days_since_last_maint : Rat) / 180 * 100) 100

/-- C-check progress: the max of the capped FH proxy (`FH_used*2 / 6000`)
and the capped day fraction (`days/730`), each times 100. -/
def c_progress_of (a_fh_used : Rat) (days_since_last_maint : Int) : Rat :=
  max (min (a_fh_used * 2 / 6000 * 100) 100)
      (min ((days_since_last_maint : Rat) / 730 * 100) 100)

/-- D-check progress: `min(days_since_d_check/2190 * 100, 100)`. -/
def d_progress_of (days_since_d_check : Int) : Rat :=
  min ((days_since_d_check : Rat) / 2190 * 100) 100

/-- The A-check `MaintenanceStatus` record built by
`calculate_maintenance_status` (src/logic.py lines 383-419). -/
def a_check_status (current_dt : Int) (daily_fh a_fh_used a_fc_used : Rat)
    (finding : NonRoutineFinding) : MaintenanceStatus :=
  let a_fh_remaining := 600 - a_fh_used
  let a_fc_remaining := 400 - a_fc_used
  let a_progress := a_progress_of a_fh_used a_fc_used
  let a_days_remaining := if 0 < daily_fh then pyInt (a_fh_remaining / daily_fh) else 999
  { check_type := "A Check",
    remaining_fh := some (pyRound1 a_fh_remaining),
    remaining_fc := some (pyRound1 a_fc_remaining),
    remaining_days := a_days_remaining,
    progress_percent := pyRound1 (min a_progress 100),
    status := get_status_level a_progress,
    action_required := decide (a_progress ≥ 90),
    next_due_date := formatOrdinal (current_dt + a_days_remaining),
    description := "Light Maintenance Check",
    base_duration_days := 1,
    adjusted_duration_days := 1 + finding.extra_days,
    non_routine_finding := finding,
    academic_note := "Papakostas (2010): Routine line maintenance" }

/-- The B-check `MaintenanceStatus` record (src/logic.py lines 421-448). -/
def b_check_status (current_dt : Int) (days_since_last_maint : Int)
    (finding : NonRoutineFinding) : MaintenanceStatus :=
  let b_days_remaining := max 0 (180 - days_since_last_maint)
  let b_progress := b_progress_of days_since_last_maint
  { check_type := "B Check / Phased Maintenance",
    remaining_fh := none,
    remaining_fc := none,
    remaining_days := b_days_remaining,
    progress_percent := pyRound1 b_progress,
    status := get_status_level b_progress,
    action_required := decide (b_progress ≥ 90),
    next_due_date := formatOrdinal (current_dt + b_days_remaining),
    description := "Phased/Block Check",
    base_duration_days := 3,
    adjusted_duration_days := 3 + finding.extra_days,
    non_routine_finding := finding,
    academic_note := "Papakostas (2010): Modern airlines use phased approach" }

/-- The C-check `MaintenanceStatus` record (src/logic.py lines 450-494);
the deferral flag and reason are computed by the caller. -/
def c_check_status (current_dt : Int) (days_since_last_maint : Int)
    (a_fh_used : Rat) (finding : NonRoutineFinding)
    (c_is_deferred : Bool) (c_deferral_reason : String) : MaintenanceStatus :=
  let c_fh_used := a_fh_used * 2
  let c_fh_remaining := max 0 (6000 - c_fh_used)
  let c_days_remaining := max 0 (730 - days_since_last_maint)
  let c_progress := c_progress_of a_fh_used days_since_last_maint
  { check_type := "C Check",
    remaining_fh := some (pyRound1 c_fh_remaining),
    remaining_fc := none,
    remaining_days := c_days_remaining,
    progress_percent := pyRound1 c_progress,
    status := if c_is_deferred then .DEFERRED else get_status_level c_progress,
    action_required := decide (c_progress ≥ 85),
    next_due_date := formatOrdinal (current_dt + c_days_remaining),
    description := "Heavy Base Maintenance",
    base_duration_days := 7,
    adjusted_duration_days := 7 + finding.extra_days,
    non_routine_finding := finding,
    is_deferred := c_is_deferred,
    deferral_reason := c_deferral_reason,
    academic_note := "Callewaert (2017): Hangar-based structural inspection" }

/-- The D-check `MaintenanceStatus` record (src/logic.py lines 496-532). -/
def d_check_status (current_dt : Int) (days_since_d_check : Int)
    (finding : NonRoutineFinding)
    (d_is_deferred : Bool) (d_deferral_reason : String) : MaintenanceStatus :=
  let d_days_remaining := max 0 (2190 - days_since_d_check)
  let d_progress := d_progress_of days_since_d_check
  { check_type := "D Check (Heavy Maintenance)",
    remaining_fh := none,
    remaining_fc := none,
    remaining_days := d_days_remaining,
    progress_percent := pyRound1 d_progress,
    status := if d_is_deferred then .DEFERRED else get_status_level d_progress,
    action_required := decide (d_progress ≥ 80),
    next_due_date := formatOrdinal (current_dt + d_days_remaining),
    description := "Structural Overhaul (Heavy)",
    base_duration_days := 30,
    adjusted_duration_days := 30 + finding.extra_days,
    non_routine_finding := finding,
    is_deferred := d_is_deferred,
    deferral_reason := d_deferral_reason,
    academic_note := "Complete aircraft teardown and inspection" }

/-- The `if hangar_status and progress >= threshold:` deferral block of
the C and D checks: when a hangar state is supplied and the threshold is
reached it reads `aircraft_data["Kategori"]` (KeyError if missing) and
queries `check_hangar_availability`. -/
def deferral_check (hangar : Option HangarStatus) (progress threshold : Rat)
    (kategori : Option String) : Except CalcError (Bool × String) :=
  match hangar with
  | some hs =>
    if threshold ≤ progress then
      match kategori with
      | some kat =>
        if (check_hangar_availability hs kat).1 then .ok (false, "")
        else .ok (true, (check_hangar_availability hs kat).2)
      | none => .error (.MissingField ("Kategori"))
    else .ok (false, "")
  | none => .ok (false, "")

/-- The result dict of `calculate_maintenance_status`; Python dicts keep
insertion order, so iteration order is A, B, C, D. -/
structure MaintenanceResults where
  A : MaintenanceStatus
  B : MaintenanceStatus
  C : MaintenanceStatus
  D : MaintenanceStatus
deriving DecidableEq

/-- The computation body of `calculate_maintenance_status` after the
input dict has been read: the four check blocks in source order, with the
stochastic draws threaded through the generator state exactly as the
source threads the global `random` state (A draw, B draw, C draw,
C deferral, D draw, D deferral). -/
def computeResults {σ : Type} (R : RandomLib σ) (current_dt lmd ldd : Int)
    (daily_fh a_fh_used a_fc_used : Rat) (kategori : Option String)
    (hangar : Option HangarStatus) (apply_stochastic : Bool) (s0 : σ) :
    Except CalcError (MaintenanceResults × σ) := do
  let days_since_last_maint := current_dt - lmd
  let days_since_d_check := current_dt - ldd
  let drawA := if apply_stochastic then simulate_non_routine_finding R none s0 else ({}, s0)
  let drawB := if apply_stochastic then simulate_non_routine_finding R none drawA.2 else ({}, drawA.2)
  let drawC := if apply_stochastic then simulate_non_routine_finding R none drawB.2 else ({}, drawB.2)
  let cDef ← deferral_check hangar (c_progress_of a_fh_used days_since_last_maint) 85 kategori
  let drawD := if apply_stochastic then simulate_non_routine_finding R none drawC.2 else ({}, drawC.2)
  let dDef ← deferral_check hangar (d_progress_of days_since_d_check) 80 kategori
  .ok (⟨a_check_status current_dt daily_fh a_fh_used a_fc_used drawA.1,
        b_check_status current_dt days_since_last_maint drawB.1,
        c_check_status current_dt days_since_last_maint a_fh_used drawC.1 cDef.1 cDef.2,
        d_check_status current_dt days_since_d_check drawD.1 dDef.1 dDef.2⟩, drawD.2)

/-- Model of `calculate_maintenance_status` from src/logic.py (the src/app.py copy
agrees on every field a claim below inspects; it differs only in seeding
the per-check stochastic draws from `hash(tail + letter)` and in leaving
`academic_note` empty).  The reference date is the explicit
`current_date` argument; a failure in parsing or field access aborts the
call with no result map. -/
def calculate_maintenance_status {σ : Type} (R : RandomLib σ) (ad : AircraftData)
    (current_date : String) (hangar : Option HangarStatus)
    (apply_stochastic : Bool) (s0 : σ) :
    Except CalcError (MaintenanceResults × σ) := do
  let p ← parse_inputs ad current_date
  computeResults R p.current_dt p.last_maint p.last_d p.daily_fh p.a_fh_used
    p.a_fc_used ad.kategori hangar apply_stochastic s0

/-- Model of `get_most_critical_maintenance` from src/logic.py (identical loop in
src/app.py), unrolled over the dict's fixed iteration order A, B, C, D:
keep the current entry unless a later one has strictly higher
`progress_percent`. -/
def get_most_critical_maintenance (mr : MaintenanceResults) :
    String × MaintenanceStatus :=
  let critical := ("A", mr.A)
  let critical := if mr.B.progress_percent > critical.2.progress_percent then ("B", mr.B) else critical
  let critical := if mr.C.progress_percent > critical.2.progress_percent then ("C", mr.C) else critical
  if mr.D.progress_percent > critical.2.progress_percent then ("D", mr.D) else critical

/-- The result map of a successful evaluation, if any. -/
def resultOf {σ : Type} (e : Except CalcError (MaintenanceResults × σ)) :
    Option MaintenanceResults :=
  e.toOption.map Prod.fst

/-- Whether an evaluation succeeded. -/
def exceptIsOk {ε α : Type} : Except ε α → Bool
  | .ok _ => true
  | .error _ => false

/-- A trivial instance of the `random` interface (used where a theorem is
evaluated with `apply_stochastic = False`, so no draw happens). -/
def noRNG : RandomLib Unit where
  seedFn := fun _ => ()
  randomFn := fun s => (0, s)
  randint13Fn := fun s => (1, s)
  choice3Fn := fun s => (0, s)

/-- A concrete instance of the `random` interface whose state is the seed
itself: even seeds make the first uniform draw 0.1 (below the 0.15
finding probability), odd seeds make it 0.9.  Used to evaluate the
seeded generator at concrete seeds. -/
def sampleRandomLib : RandomLib Nat where
  seedFn := fun n => n
  randomFn := fun s => (if s % 2 = 0 then (1 : Rat) / 10 else 9 / 10, s)
  randint13Fn := fun s => (1, s)
  choice3Fn := fun s => (0, s)

/-- The end-to-end scenario aircraft of the spec (FH_used 520, FC_used
340, daily rate 12.5, last maintenance 2025-11-01), matching the test
aircraft at the bottom of src/logic.py. -/
def scenarioAircraft : AircraftData where
  kuyruk_no := some ("TC-JJK25")
  kategori := some ("WIDE")
  son_bakim_tarihi := some ("2025-11-01")
  son_d_check_tarihi := some ("2022-06-15")
  son_bakimdan_beri_fh := some 520
  son_bakimdan_beri_fc := some 340
  gunluk_ort_fh := some (25 / 2)

/-- The scenario aircraft with a zero daily flight-hour rate. -/
def zeroRateAircraft : AircraftData :=
  { scenarioAircraft with gunluk_ort_fh := some 0 }

/-- The scenario aircraft with an unparseable last-maintenance date
(month 13). -/
def badDateAircraft : AircraftData :=
  { scenarioAircraft with son_bakim_tarihi := some ("2025-13-01") }

/-- The scenario aircraft with raw A-check progress 89.96
(FH_used = 539.76). -/
def nearCriticalAircraft : AircraftData :=
  { scenarioAircraft with son_bakimdan_beri_fh := some (13494 / 25), son_bakimdan_beri_fc := some 100 }

/-- The scenario aircraft with raw A-check progress exactly 90
(FH_used = 540). -/
def atCriticalAircraft : AircraftData :=
  { scenarioAircraft with son_bakimdan_beri_fh := some 540, son_bakimdan_beri_fc := some 100 }

/-- A fleet with exactly five wide-body aircraft in maintenance. -/
def fiveWideFleet : List FleetRow := List.replicate 5 ⟨"WIDE", "Bakımda"⟩

/-- A fleet with six wide-body aircraft in maintenance (one above the
wide-body capacity of 5). -/
def sixWideFleet : List FleetRow := List.replicate 6 ⟨"WIDE", "Bakımda"⟩

/-- A fleet with fifteen narrow-body aircraft in maintenance (the total
capacity of 15, with no wide-body congestion). -/
def fifteenNarrowFleet : List FleetRow := List.replicate 15 ⟨"NARROW", "Bakımda"⟩

/-- A hangar state whose wide-body slots are exhausted. -/
def fullWideHangar : HangarStatus := calculate_hangar_status fiveWideFleet

/-- A `MaintenanceStatus` that only carries a progress value, for feeding
the critical-selector with prescribed progress percentages. -/
def statusWithProgress (p : Rat) : MaintenanceStatus where
  check_type := ""
  remaining_fh := none
  remaining_fc := none
  remaining_days := 0
  progress_percent := p
  status := .OK
  action_required := false
  next_due_date := ""
  description := ""
  base_duration_days := 0
  adjusted_duration_days := 0

/-- The largest `progress_percent` among the four check entries of a
result map. -/
def maxProgress4 (sA sB sC sD : MaintenanceStatus) : Rat :=
  max (max (max sA.progress_percent sB.progress_percent) sC.progress_percent)
    sD.progress_percent

/-! ## Helper lemmas -/

/-- Without a hangar state the deferral block is skipped. -/
lemma deferral_check_none (p th : Rat) (kat : Option String) :
    deferral_check none p th kat = .ok (false, "") := rfl

/-- With a hangar state and a present category the deferral block cannot
fail. -/
lemma deferral_check_some_ok (hs : HangarStatus) (p th : Rat) (k : String) :
    ∃ pr, deferral_check (some hs) p th (some k) = .ok pr := by
  simp only [deferral_check]
  split_ifs <;> exact ⟨_, rfl⟩

/-- With a hangar state, the threshold reached and no slot available, the
deferral block reports a deferral carrying the availability reason. -/
lemma deferral_check_unavailable (hs : HangarStatus) (k : String) (p th : Rat)
    (hp : th ≤ p) (hav : (check_hangar_availability hs k).1 = false) :
    deferral_check (some hs) p th (some k) =
      .ok (true, (check_hangar_availability hs k).2) := by
  simp [deferral_check, hp, hav]

/-- Shape of a successful run of the calculation body, given the outcome
of the two deferral blocks. -/
lemma computeResults_eq_of_deferrals {σ : Type} (R : RandomLib σ)
    (cdt lmd ldd : Int) (daily afh afc : Rat) (kat : Option String)
    (hangar : Option HangarStatus) (stoch : Bool) (s0 : σ) (cD dD : Bool × String)
    (hC : deferral_check hangar (c_progress_of afh (cdt - lmd)) 85 kat = .ok cD)
    (hD : deferral_check hangar (d_progress_of (cdt - ldd)) 80 kat = .ok dD) :
    ∃ af bf cf df s4,
      computeResults R cdt lmd ldd daily afh afc kat hangar stoch s0 =
        .ok (⟨a_check_status cdt daily afh afc af,
              b_check_status cdt (cdt - lmd) bf,
              c_check_status cdt (cdt - lmd) afh cf cD.1 cD.2,
              d_check_status cdt (cdt - ldd) df dD.1 dD.2⟩, s4) := by
  unfold computeResults
  simp only [bind, Except.bind, hC, hD]
  exact ⟨_, _, _, _, _, rfl⟩

/-- Inversion of a successful run of the calculation body. -/
lemma computeResults_ok_inv {σ : Type} {R : RandomLib σ}
    {cdt lmd ldd : Int} {daily afh afc : Rat} {kat : Option String}
    {hangar : Option HangarStatus} {stoch : Bool} {s0 : σ}
    {r : MaintenanceResults} {s4 : σ}
    (h : computeResults R cdt lmd ldd daily afh afc kat hangar stoch s0 = .ok (r, s4)) :
    ∃ (cD dD : Bool × String) (af bf cf df : NonRoutineFinding),
      r = ⟨a_check_status cdt daily afh afc af,
           b_check_status cdt (cdt - lmd) bf,
           c_check_status cdt (cdt - lmd) afh cf cD.1 cD.2,
           d_check_status cdt (cdt - ldd) df dD.1 dD.2⟩ := by
  unfold computeResults at h
  simp only [bind, Except.bind] at h
  cases hc : deferral_check hangar (c_progress_of afh (cdt - lmd)) 85 kat with
  | error e => rw [hc] at h; exact absurd h (by simp)
  | ok cD =>
    rw [hc] at h
    cases hd : deferral_check hangar (d_progress_of (cdt - ldd)) 80 kat with
    | error e => rw [hd] at h; exact absurd h (by simp)
    | ok dD =>
      rw [hd] at h
      simp only [Except.ok.injEq, Prod.mk.injEq] at h
      exact ⟨cD, dD, _, _, _, _, h.1.symm⟩

/-- Inversion of a successful read of the aircraft dict: every
unconditionally required field was present, and both snapshot dates
parsed. -/
lemma parse_inputs_ok_inv {ad : AircraftData} {cd : String} {p : ParsedInput}
    (h : parse_inputs ad cd = .ok p) :
    (∃ t, ad.son_bakim_tarihi = some t ∧ (strptime t).isSome = true) ∧
    (∃ t, ad.son_d_check_tarihi = some t ∧ (strptime t).isSome = true) ∧
    ad.gunluk_ort_fh = some p.daily_fh ∧
    ad.son_bakimdan_beri_fh = some p.a_fh_used ∧
    ad.son_bakimdan_beri_fc = some p.a_fc_used := by
  unfold parse_inputs at h
  simp only [bind, Except.bind] at h
  cases h1 : parseDateE cd with
  | error e => rw [h1] at h; exact absurd h (by simp)
  | ok cdt =>
  rw [h1] at h
  cases h2 : ad.son_bakim_tarihi with
  | none => rw [h2] at h; exact absurd h (by simp [getField])
  | some lm =>
  rw [h2] at h
  simp only [getField] at h
  cases h3 : strptime lm with
  | none => rw [show parseDateE lm = .error .InvalidDateFormat by simp [parseDateE, h3]] at h; exact absurd h (by simp)
  | some lmDate =>
  rw [show parseDateE lm = .ok (days_from_civil lmDate) by simp [parseDateE, h3]] at h
  cases h4 : ad.son_d_check_tarihi with
  | none => rw [h4] at h; exact absurd h (by simp [getField])
  | some ld =>
  rw [h4] at h
  simp only [getField] at h
  cases h5 : strptime ld with
  | none => rw [show parseDateE ld = .error .InvalidDateFormat by simp [parseDateE, h5]] at h; exact absurd h (by simp)
  | some ldDate =>
  rw [show parseDateE ld = .ok (days_from_civil ldDate) by simp [parseDateE, h5]] at h
  cases h6 : ad.gunluk_ort_fh with
  | none => rw [h6] at h; exact absurd h (by simp [getField])
  | some daily =>
  rw [h6] at h
  cases h7 : ad.son_bakimdan_beri_fh with
  | none => rw [h7] at h; exact absurd h (by simp [getField])
  | some afh =>
  rw [h7] at h
  cases h8 : ad.son_bakimdan_beri_fc with
  | none => rw [h8] at h; exact absurd h (by simp [getField])
  | some afc =>
  rw [h8] at h
  simp only [getField, Except.ok.injEq] at h
  refine ⟨⟨lm, rfl, by simp [h3]⟩, ⟨ld, rfl, by simp [h5]⟩, ?_, ?_, ?_⟩ <;>
    rw [← h]

/-! ## Claim theorems -/

/-- C1 (counterexample): the claim asserts that the stochastic finding
generator gives identical outcomes for the same seed key across separate
processes.  The generator of src/app.py seeds the stream with
`hash(aircraft_tail) % 2**32`, and CPython's string `hash` is salted per
process, so two processes may hash the same key to different seeds; at
two such interpreter hash functions (here mapping the key to 0 and to 1)
a backend of the random interface yields a finding in one process and no
finding in the other. -/
theorem simulate_app_cross_process_counterexample :
    simulate_non_routine_finding_app sampleRandomLib (fun _ => 0) "TC-JJK25A" ≠
      simulate_non_routine_finding_app sampleRandomLib (fun _ => 1) "TC-JJK25A" := by
  with_unfolding_all decide

/-- C1 (amended): within one interpreter process the generator of
src/app.py is a pure deterministic function of the seed key — its outcome
depends on the process hash function only through the 32-bit seed
`hash(key) % 2**32`, so two calls with the same key in the same process
(or in any two processes whose hashes agree on the key modulo `2**32`)
yield the identical `(present, kind, extra_days)` outcome.  Across
arbitrary processes this degrades to determinism conditional on the
salted hash agreeing. -/
theorem simulate_app_seed_determinism {σ : Type} (R : RandomLib σ)
    (hashA hashB : String → Nat) (tail : String)
    (hseed : hashA tail % 2 ^ 32 = hashB tail % 2 ^ 32) :
    simulate_non_routine_finding_app R hashA tail =
      simulate_non_routine_finding_app R hashB tail := by
  unfold simulate_non_routine_finding_app
  rw [hseed]

/-- C1 (witness): two distinct interpreter hash functions that agree on
the key modulo `2**32` give the same outcome. -/
theorem simulate_app_seed_determinism_witness :
    simulate_non_routine_finding_app sampleRandomLib (fun _ => 7) "TC-JJK25A" =
      simulate_non_routine_finding_app sampleRandomLib (fun _ => 7 + 2 ^ 32) "TC-JJK25A" :=
  simulate_app_seed_determinism sampleRandomLib (fun _ => 7) (fun _ => 7 + 2 ^ 32)
    "TC-JJK25A" (by decide)

/-- C4: the classifier returns CRITICAL exactly on progress ≥ 90, WARNING
exactly on 75 ≤ progress < 90 and OK exactly on progress < 75; the
boundary values 75 and 90 (and 89.999) land in the stated tiers. -/
theorem get_status_level_thresholds (p : Rat) :
    (get_status_level p = .CRITICAL ↔ 90 ≤ p) ∧
    (get_status_level p = .WARNING ↔ 75 ≤ p ∧ p < 90) ∧
    (get_status_level p = .OK ↔ p < 75) ∧
    get_status_level 75 = .WARNING ∧
    get_status_level (89999 / 1000) = .WARNING ∧
    get_status_level 90 = .CRITICAL := by
  refine ⟨?_, ?_, ?_, by with_unfolding_all decide, by with_unfolding_all decide,
    by with_unfolding_all decide⟩ <;>
    · unfold get_status_level
      split_ifs with h1 h2 <;> simp_all <;> first | linarith | constructor <;> linarith

/-- C2 (counterexample): in the end-to-end scenario (FH_used 520, FC_used
340, daily rate 12.5, reference date 2026-01-01, last maintenance
2025-11-01) the A-check entry's `progress_percent` is 86.7 — the raw
progress 86.67 rounded to one decimal — and not 86.67 as the claim
states. -/
theorem a_check_scenario_counterexample :
    (resultOf (calculate_maintenance_status noRNG scenarioAircraft ("2026-01-01") none false ())).map
        (fun r => r.A.progress_percent) = some (867 / 10) ∧
    ¬ (resultOf (calculate_maintenance_status noRNG scenarioAircraft ("2026-01-01") none false ())).map
        (fun r => r.A.progress_percent) = some (8667 / 100) := by
  constructor <;> with_unfolding_all decide

/-- C2 (amended): in the end-to-end scenario the A-check entry has
`progress_percent` 86.7 (the raw 86.67 rounded to one decimal place),
severity WARNING, `remaining_days` 6 = floor((600 − 520) / 12.5), and
projected due date 2026-01-07. -/
theorem a_check_scenario :
    (resultOf (calculate_maintenance_status noRNG scenarioAircraft ("2026-01-01") none false ())).map
        (fun r => r.A.progress_percent) = some (867 / 10) ∧
    (resultOf (calculate_maintenance_status noRNG scenarioAircraft ("2026-01-01") none false ())).map
        (fun r => r.A.status) = some .WARNING ∧
    (resultOf (calculate_maintenance_status noRNG scenarioAircraft ("2026-01-01") none false ())).map
        (fun r => r.A.remaining_days) = some 6 ∧
    (resultOf (calculate_maintenance_status noRNG scenarioAircraft ("2026-01-01") none false ())).map
        (fun r => r.A.next_due_date) = some ("2026-01-07") := by
  refine ⟨by with_unfolding_all decide, by with_unfolding_all decide,
    by with_unfolding_all decide, by with_unfolding_all decide⟩

/-- C6 (counterexample): the claim's general rule — `is_full` whenever the
total in-maintenance count reaches the total capacity 15 — does not hold
consistently across the program: on a fleet of fifteen in-maintenance
narrow-bodies the src/logic.py variant reports full but the src/app.py
variant (gated solely on the wide-body count) does not. -/
theorem hangar_total_capacity_counterexample :
    totalMaintCount fifteenNarrowFleet = 15 ∧
    (calculate_hangar_status_app fifteenNarrowFleet).is_full = false ∧
    (calculate_hangar_status fifteenNarrowFleet).is_full = true := by
  refine ⟨by decide, by decide, by decide⟩

/-- C6 (amended): when exactly 5 wide-body aircraft are in maintenance,
both variants of the hangar aggregation report `is_full`, and
`available(state, "WIDE")` is false with a reason naming the 5/5 capacity
limit; the rule "`is_full` iff wide-body count ≥ 5 or total count ≥ 15"
holds for the src/logic.py variant, while the src/app.py variant gates
`is_full` on the wide-body count alone. -/
theorem hangar_full_wide_capacity (fleet : List FleetRow)
    (h5 : wideBodyMaintCount fleet = 5) :
    (calculate_hangar_status fleet).is_full = true ∧
    (calculate_hangar_status_app fleet).is_full = true ∧
    (check_hangar_availability (calculate_hangar_status fleet) ("WIDE")).1 = false ∧
    (check_hangar_availability (calculate_hangar_status fleet) ("WIDE")).2 =
      "Wide-body hangar kapasitesi dolu (5/5). Ref: Kowalski (2021)" ∧
    (∀ g : List FleetRow, (calculate_hangar_status g).is_full = true ↔
      (5 ≤ wideBodyMaintCount g ∨ 15 ≤ totalMaintCount g)) ∧
    (∀ g : List FleetRow, (calculate_hangar_status_app g).is_full = true ↔
      5 ≤ wideBodyMaintCount g) := by
  have hfull : (calculate_hangar_status fleet).is_full = true := by
    simp [calculate_hangar_status, h5]
  have hav : (calculate_hangar_status fleet).wide_body_available ≤ 0 := by
    simp [calculate_hangar_status, h5]
  refine ⟨hfull, by simp [calculate_hangar_status_app, h5], ?_, ?_, ?_, ?_⟩
  · simp [check_hangar_availability, hav]
  · simp [check_hangar_availability, hav]
  · intro g; simp [calculate_hangar_status]
  · intro g; simp [calculate_hangar_status_app]

/-- C6 (witness): a concrete fleet with exactly five wide-body aircraft
in maintenance is reported full and unavailable for WIDE. -/
theorem hangar_full_wide_capacity_witness :
    (calculate_hangar_status fiveWideFleet).is_full = true ∧
    (check_hangar_availability (calculate_hangar_status fiveWideFleet) ("WIDE")).1 = false :=
  ⟨(hangar_full_wide_capacity fiveWideFleet (by decide)).1,
   (hangar_full_wide_capacity fiveWideFleet (by decide)).2.2.1⟩

/-- C7 (counterexample): the claim asserts the available-slot counts are
clamped at zero (`max(capacity − count, 0)`), but the source computes the
plain difference: with six wide-bodies in maintenance the wide-body
available count is −1. -/
theorem hangar_available_negative_counterexample :
    (calculate_hangar_status sixWideFleet).wide_body_available = -1 ∧
    ¬ 0 ≤ (calculate_hangar_status sixWideFleet).wide_body_available := by
  refine ⟨by decide, by decide⟩

/-- C7 (amended): the available-slot counts of the hangar state are the
unclamped differences capacity − count (wide capacity 5, narrow capacity
12) in both source variants, and are therefore negative whenever the
in-maintenance count exceeds the capacity. -/
theorem hangar_available_unclamped (fleet : List FleetRow) :
    (calculate_hangar_status fleet).wide_body_available = 5 - wideBodyMaintCount fleet ∧
    (calculate_hangar_status fleet).narrow_body_available = 12 - narrowBodyMaintCount fleet ∧
    (calculate_hangar_status_app fleet).wide_body_available = 5 - wideBodyMaintCount fleet ∧
    (calculate_hangar_status_app fleet).narrow_body_available = 12 - narrowBodyMaintCount fleet ∧
    (5 < wideBodyMaintCount fleet → (calculate_hangar_status fleet).wide_body_available < 0) := by
  refine ⟨rfl, rfl, rfl, rfl, fun h => ?_⟩
  simp only [calculate_hangar_status]
  omega

/-- C7 (witness): at the six-wide-body fleet the over-capacity implication
applies and yields a negative available count. -/
theorem hangar_available_unclamped_witness :
    (calculate_hangar_status sixWideFleet).wide_body_available < 0 :=
  (hangar_available_unclamped sixWideFleet).2.2.2.2 (by decide)

/-- C3: whenever the daily flight-hour rate of the snapshot is zero or
negative and the evaluation succeeds, the A-check entry's
`remaining_days` is the far-future sentinel 999 rather than a computed
ETA; no division is attempted (the error type has no division-error case,
and the guarded branch is taken for every non-positive rate). -/
theorem a_check_degenerate_rate {σ : Type} (R : RandomLib σ) (s : σ)
    (ad : AircraftData) (cd : String) (hg : Option HangarStatus) (stoch : Bool)
    (q : Rat) (hq : ad.gunluk_ort_fh = some q) (hq0 : q ≤ 0)
    (hok : exceptIsOk (calculate_maintenance_status R ad cd hg stoch s) = true) :
    (resultOf (calculate_maintenance_status R ad cd hg stoch s)).map
      (fun r => r.A.remaining_days) = some 999 := by
  cases hcall : calculate_maintenance_status R ad cd hg stoch s with
  | error e => rw [hcall] at hok; exact absurd hok (by simp [exceptIsOk])
  | ok pr =>
    obtain ⟨r, s4⟩ := pr
    have hcall2 := hcall
    unfold calculate_maintenance_status at hcall2
    cases hp : parse_inputs ad cd with
    | error e => rw [hp] at hcall2; exact absurd hcall2 (by simp [bind, Except.bind])
    | ok p =>
      rw [hp] at hcall2
      simp only [bind, Except.bind] at hcall2
      have hdaily : ad.gunluk_ort_fh = some p.daily_fh := (parse_inputs_ok_inv hp).2.2.1
      rw [hq] at hdaily
      injection hdaily with hdq
      obtain ⟨cD, dD, af, bf, cf, df, hr⟩ := computeResults_ok_inv hcall2
      rw [hr]
      simp only [resultOf, Except.toOption, Option.map, a_check_status]
      rw [if_neg (by rw [← hdq]; exact not_lt.mpr hq0)]

/-- C3 (witness): the scenario aircraft with a zero daily rate evaluates
successfully and reports the 999-day sentinel for the A check. -/
theorem a_check_degenerate_rate_witness :
    (resultOf (calculate_maintenance_status noRNG zeroRateAircraft ("2026-01-01") none false ())).map
      (fun r => r.A.remaining_days) = some 999 :=
  a_check_degenerate_rate noRNG () zeroRateAircraft "2026-01-01" none false 0 rfl
    (le_refl 0) (by with_unfolding_all decide)

/-- C5: with a hangar state supplied, deferral applies to the C and D
checks exactly as claimed — once the check's progress reaches its
deferral threshold (C: 85, D: 80) and availability for the aircraft's
category is false, the entry has `is_deferred = true`, carries the
availability reason string, and its severity is DEFERRED, overriding the
progress classification; the A and B entries are never deferred; and the
same inputs evaluated with no hangar state yield non-deferred C and D
severities computed purely from progress. -/
theorem deferral_rule {σ : Type} (R : RandomLib σ) (s : σ) (cdt lmd ldd : Int)
    (daily afh afc : Rat) (kat : String) (hs : HangarStatus) (stoch : Bool)
    (hav : (check_hangar_availability hs kat).1 = false) :
    (85 ≤ c_progress_of afh (cdt - lmd) →
      (resultOf (computeResults R cdt lmd ldd daily afh afc (some kat) (some hs) stoch s)).map
        (fun r => (r.C.is_deferred, r.C.status, r.C.deferral_reason)) =
        some (true, .DEFERRED, (check_hangar_availability hs kat).2)) ∧
    (80 ≤ d_progress_of (cdt - ldd) →
      (resultOf (computeResults R cdt lmd ldd daily afh afc (some kat) (some hs) stoch s)).map
        (fun r => (r.D.is_deferred, r.D.status, r.D.deferral_reason)) =
        some (true, .DEFERRED, (check_hangar_availability hs kat).2)) ∧
    (resultOf (computeResults R cdt lmd ldd daily afh afc (some kat) (some hs) stoch s)).map
        (fun r => (r.A.is_deferred, r.B.is_deferred)) = some (false, false) ∧
    (resultOf (computeResults R cdt lmd ldd daily afh afc (some kat) none stoch s)).map
        (fun r => (r.C.is_deferred, r.C.status, r.D.is_deferred, r.D.status)) =
      some (false, get_status_level (c_progress_of afh (cdt - lmd)), false,
            get_status_level (d_progress_of (cdt - ldd))) := by
  obtain ⟨cDa, hCa⟩ := deferral_check_some_ok hs (c_progress_of afh (cdt - lmd)) 85 kat
  obtain ⟨dDa, hDa⟩ := deferral_check_some_ok hs (d_progress_of (cdt - ldd)) 80 kat
  refine ⟨?_, ?_, ?_, ?_⟩
  · intro hcp
    have hC := deferral_check_unavailable hs kat _ 85 hcp hav
    obtain ⟨af, bf, cf, df, s4, heq⟩ := computeResults_eq_of_deferrals R cdt lmd ldd
      daily afh afc (some kat) (some hs) stoch s _ dDa hC hDa
    rw [heq]
    simp [resultOf, Except.toOption, c_check_status]
  · intro hdp
    have hD := deferral_check_unavailable hs kat _ 80 hdp hav
    obtain ⟨af, bf, cf, df, s4, heq⟩ := computeResults_eq_of_deferrals R cdt lmd ldd
      daily afh afc (some kat) (some hs) stoch s cDa _ hCa hD
    rw [heq]
    simp [resultOf, Except.toOption, d_check_status]
  · obtain ⟨af, bf, cf, df, s4, heq⟩ := computeResults_eq_of_deferrals R cdt lmd ldd
      daily afh afc (some kat) (some hs) stoch s cDa dDa hCa hDa
    rw [heq]
    simp [resultOf, Except.toOption, a_check_status, b_check_status]
  · obtain ⟨af, bf, cf, df, s4, heq⟩ := computeResults_eq_of_deferrals R cdt lmd ldd
      daily afh afc (some kat) none stoch s (false, "") (false, "") rfl rfl
    rw [heq]
    simp [resultOf, Except.toOption, c_check_status, d_check_status]

/-- C5 (witness): a WIDE aircraft whose C progress is 86.67 and D progress
is 91.3, against a hangar whose wide-body slots are exhausted, is deferred
on C; the same inputs with no hangar state are not deferred. -/
theorem deferral_rule_witness :
    ((resultOf (computeResults noRNG 800 700 (-1200) (25 / 2) 2600 100 (some ("WIDE"))
          (some fullWideHangar) false ())).map
        (fun r => (r.C.is_deferred, r.C.status, r.C.deferral_reason)) =
      some (true, .DEFERRED, (check_hangar_availability fullWideHangar "WIDE").2)) ∧
    ((resultOf (computeResults noRNG 800 700 (-1200) (25 / 2) 2600 100 (some ("WIDE"))
          none false ())).map
        (fun r => (r.C.is_deferred, r.C.status, r.D.is_deferred, r.D.status)) =
      some (false, get_status_level (c_progress_of 2600 (800 - 700)), false,
            get_status_level (d_progress_of (800 - (-1200))))) :=
  ⟨(deferral_rule noRNG () 800 700 (-1200) (25 / 2) 2600 100 "WIDE" fullWideHangar false
      (by with_unfolding_all decide)).1 (by with_unfolding_all decide),
   (deferral_rule noRNG () 800 700 (-1200) (25 / 2) 2600 100 "WIDE" fullWideHangar false
      (by with_unfolding_all decide)).2.2.2⟩

/-- C8: the critical-selector returns the entry with the highest
`progress_percent`, with ties broken in favor of the first-encountered
check in the fixed iteration order A, B, C, D, selecting by raw progress
magnitude, not severity tier; on progresses [86.67, 33.9, 17.1, 9.3] it
returns the A entry. -/
theorem most_critical_selection (sA sB sC sD : MaintenanceStatus) :
    (get_most_critical_maintenance ⟨sA, sB, sC, sD⟩).2.progress_percent =
      maxProgress4 sA sB sC sD ∧
    (sA.progress_percent = maxProgress4 sA sB sC sD →
      get_most_critical_maintenance ⟨sA, sB, sC, sD⟩ = ("A", sA)) ∧
    (sA.progress_percent < maxProgress4 sA sB sC sD →
      sB.progress_percent = maxProgress4 sA sB sC sD →
      get_most_critical_maintenance ⟨sA, sB, sC, sD⟩ = ("B", sB)) ∧
    (sA.progress_percent < maxProgress4 sA sB sC sD →
      sB.progress_percent < maxProgress4 sA sB sC sD →
      sC.progress_percent = maxProgress4 sA sB sC sD →
      get_most_critical_maintenance ⟨sA, sB, sC, sD⟩ = ("C", sC)) ∧
    (sA.progress_percent < maxProgress4 sA sB sC sD →
      sB.progress_percent < maxProgress4 sA sB sC sD →
      sC.progress_percent < maxProgress4 sA sB sC sD →
      get_most_critical_maintenance ⟨sA, sB, sC, sD⟩ = ("D", sD)) ∧
    get_most_critical_maintenance ⟨statusWithProgress (8667 / 100),
        statusWithProgress (339 / 10), statusWithProgress (171 / 10),
        statusWithProgress (93 / 10)⟩ =
      ("A", statusWithProgress (8667 / 100)) := by
  have haM : sA.progress_percent ≤ maxProgress4 sA sB sC sD :=
    ((le_max_left _ _).trans (le_max_left _ _)).trans (le_max_left _ _)
  have hbM : sB.progress_percent ≤ maxProgress4 sA sB sC sD :=
    ((le_max_right _ _).trans (le_max_left _ _)).trans (le_max_left _ _)
  have hcM : sC.progress_percent ≤ maxProgress4 sA sB sC sD :=
    (le_max_right _ _).trans (le_max_left _ _)
  have hdM : sD.progress_percent ≤ maxProgress4 sA sB sC sD := le_max_right _ _
  have hM4 : maxProgress4 sA sB sC sD =
      max (max (max sA.progress_percent sB.progress_percent) sC.progress_percent)
        sD.progress_percent := rfl
  have hconc : get_most_critical_maintenance ⟨statusWithProgress (8667 / 100),
      statusWithProgress (339 / 10), statusWithProgress (171 / 10),
      statusWithProgress (93 / 10)⟩ = ("A", statusWithProgress (8667 / 100)) := by
    with_unfolding_all rfl
  unfold get_most_critical_maintenance
  dsimp only
  by_cases h1 : sB.progress_percent > sA.progress_percent
  · simp only [if_pos h1]
    by_cases h2 : sC.progress_percent > sB.progress_percent
    · simp only [if_pos h2]
      by_cases h3 : sD.progress_percent > sC.progress_percent
      · simp only [if_pos h3]
        have hm : maxProgress4 sA sB sC sD = sD.progress_percent :=
          le_antisymm (by rw [hM4]; refine max_le (max_le (max_le ?_ ?_) ?_) ?_ <;> linarith) hdM
        refine ⟨hm.symm, ?_, ?_, ?_, ?_, hconc⟩ <;> intros <;> first | trivial | (exfalso; linarith)
      · simp only [if_neg h3]
        have hm : maxProgress4 sA sB sC sD = sC.progress_percent :=
          le_antisymm (by rw [hM4]; refine max_le (max_le (max_le ?_ ?_) ?_) ?_ <;> linarith) hcM
        refine ⟨hm.symm, ?_, ?_, ?_, ?_, hconc⟩ <;> intros <;> first | trivial | (exfalso; linarith)
    · simp only [if_neg h2]
      by_cases h3 : sD.progress_percent > sB.progress_percent
      · simp only [if_pos h3]
        have hm : maxProgress4 sA sB sC sD = sD.progress_percent :=
          le_antisymm (by rw [hM4]; refine max_le (max_le (max_le ?_ ?_) ?_) ?_ <;> linarith) hdM
        refine ⟨hm.symm, ?_, ?_, ?_, ?_, hconc⟩ <;> intros <;> first | trivial | (exfalso; linarith)
      · simp only [if_neg h3]
        have hm : maxProgress4 sA sB sC sD = sB.progress_percent :=
          le_antisymm (by rw [hM4]; refine max_le (max_le (max_le ?_ ?_) ?_) ?_ <;> linarith) hbM
        refine ⟨hm.symm, ?_, ?_, ?_, ?_, hconc⟩ <;> intros <;> first | trivial | (exfalso; linarith)
  · simp only [if_neg h1]
    by_cases h2 : sC.progress_percent > sA.progress_percent
    · simp only [if_pos h2]
      by_cases h3 : sD.progress_percent > sC.progress_percent
      · simp only [if_pos h3]
        have hm : maxProgress4 sA sB sC sD = sD.progress_percent :=
          le_antisymm (by rw [hM4]; refine max_le (max_le (max_le ?_ ?_) ?_) ?_ <;> linarith) hdM
        refine ⟨hm.symm, ?_, ?_, ?_, ?_, hconc⟩ <;> intros <;> first | trivial | (exfalso; linarith)
      · simp only [if_neg h3]
        have hm : maxProgress4 sA sB sC sD = sC.progress_percent :=
          le_antisymm (by rw [hM4]; refine max_le (max_le (max_le ?_ ?_) ?_) ?_ <;> linarith) hcM
        refine ⟨hm.symm, ?_, ?_, ?_, ?_, hconc⟩ <;> intros <;> first | trivial | (exfalso; linarith)
    · simp only [if_neg h2]
      by_cases h3 : sD.progress_percent > sA.progress_percent
      · simp only [if_pos h3]
        have hm : maxProgress4 sA sB sC sD = sD.progress_percent :=
          le_antisymm (by rw [hM4]; refine max_le (max_le (max_le ?_ ?_) ?_) ?_ <;> linarith) hdM
        refine ⟨hm.symm, ?_, ?_, ?_, ?_, hconc⟩ <;> intros <;> first | trivial | (exfalso; linarith)
      · simp only [if_neg h3]
        have hm : maxProgress4 sA sB sC sD = sA.progress_percent :=
          le_antisymm (by rw [hM4]; refine max_le (max_le (max_le ?_ ?_) ?_) ?_ <;> linarith) haM
        refine ⟨hm.symm, ?_, ?_, ?_, ?_, hconc⟩ <;> intros <;> first | trivial | (exfalso; linarith)


/-- C8 (witness): on progresses [10, 20, 30, 5] the first three
tie-break antecedents select the C entry. -/
theorem most_critical_selection_witness :
    get_most_critical_maintenance ⟨statusWithProgress 10, statusWithProgress 20,
        statusWithProgress 30, statusWithProgress 5⟩ =
      ("C", statusWithProgress 30) :=
  (most_critical_selection (statusWithProgress 10) (statusWithProgress 20)
      (statusWithProgress 30) (statusWithProgress 5)).2.2.2.1
    (by with_unfolding_all decide) (by with_unfolding_all decide)
    (by with_unfolding_all decide)

/-- C9: if a snapshot date field does not parse or a required snapshot
attribute is absent, the evaluation fails with an error propagated to the
caller and produces no result map at all — the error value carries no
(partial) map, so no check type can be silently omitted. -/
theorem evaluation_aborts_on_bad_input {σ : Type} (R : RandomLib σ) (s : σ)
    (ad : AircraftData) (cd : String) (hg : Option HangarStatus) (stoch : Bool)
    (hbad : (∃ t, ad.son_bakim_tarihi = some t ∧ strptime t = none) ∨
            (∃ t, ad.son_d_check_tarihi = some t ∧ strptime t = none) ∨
            ad.son_bakim_tarihi = none ∨ ad.son_d_check_tarihi = none ∨
            ad.gunluk_ort_fh = none ∨ ad.son_bakimdan_beri_fh = none ∨
            ad.son_bakimdan_beri_fc = none) :
    (∃ e, calculate_maintenance_status R ad cd hg stoch s = .error e) ∧
    resultOf (calculate_maintenance_status R ad cd hg stoch s) = none := by
  cases hp : parse_inputs ad cd with
  | error e =>
    have hcall : calculate_maintenance_status R ad cd hg stoch s = .error e := by
      unfold calculate_maintenance_status
      simp [hp, bind, Except.bind]
    exact ⟨⟨e, hcall⟩, by rw [hcall]; rfl⟩
  | ok p =>
    exfalso
    have hinv := parse_inputs_ok_inv hp
    rcases hbad with ⟨t, ht, hn⟩ | ⟨t, ht, hn⟩ | h | h | h | h | h
    · obtain ⟨u, hu, hsome⟩ := hinv.1
      rw [ht] at hu
      injection hu with he
      rw [← he, hn] at hsome
      simp at hsome
    · obtain ⟨u, hu, hsome⟩ := hinv.2.1
      rw [ht] at hu
      injection hu with he
      rw [← he, hn] at hsome
      simp at hsome
    · obtain ⟨u, hu, _⟩ := hinv.1
      rw [h] at hu
      exact Option.noConfusion hu
    · obtain ⟨u, hu, _⟩ := hinv.2.1
      rw [h] at hu
      exact Option.noConfusion hu
    · have hx := hinv.2.2.1
      rw [h] at hx
      exact Option.noConfusion hx
    · have hx := hinv.2.2.2.1
      rw [h] at hx
      exact Option.noConfusion hx
    · have hx := hinv.2.2.2.2
      rw [h] at hx
      exact Option.noConfusion hx

/-- C9 (witness): an aircraft whose last-maintenance date has month 13
aborts the whole evaluation with no result map. -/
theorem evaluation_aborts_on_bad_input_witness :
    resultOf (calculate_maintenance_status noRNG badDateAircraft ("2026-01-01") none false ()) = none :=
  (evaluation_aborts_on_bad_input noRNG () badDateAircraft "2026-01-01" none false
    (Or.inl ⟨"2025-13-01", rfl, by with_unfolding_all decide⟩)).2

/-- C10: the severity of the A-check entry is classified from the raw,
unrounded progress while the reported `progress_percent` is the raw value
capped at 100 and rounded to one decimal; consequently severity is not a
function of the reported value — raw progress 89.96 reports 90.0 with
severity WARNING, while raw progress 90 reports 90.0 with severity
CRITICAL. -/
theorem severity_from_raw_progress :
    (∀ (σ : Type) (R : RandomLib σ) (s : σ) (cdt lmd ldd : Int)
        (daily afh afc : Rat) (kat : Option String) (stoch : Bool),
      (resultOf (computeResults R cdt lmd ldd daily afh afc kat none stoch s)).map
          (fun r => r.A.status) = some (get_status_level (a_progress_of afh afc)) ∧
      (resultOf (computeResults R cdt lmd ldd daily afh afc kat none stoch s)).map
          (fun r => r.A.progress_percent) =
        some (pyRound1 (min (a_progress_of afh afc) 100))) ∧
    (resultOf (calculate_maintenance_status noRNG nearCriticalAircraft ("2026-01-01") none false ())).map
        (fun r => r.A.progress_percent) = some 90 ∧
    (resultOf (calculate_maintenance_status noRNG nearCriticalAircraft ("2026-01-01") none false ())).map
        (fun r => r.A.status) = some .WARNING ∧
    (resultOf (calculate_maintenance_status noRNG atCriticalAircraft ("2026-01-01") none false ())).map
        (fun r => r.A.progress_percent) = some 90 ∧
    (resultOf (calculate_maintenance_status noRNG atCriticalAircraft ("2026-01-01") none false ())).map
        (fun r => r.A.status) = some .CRITICAL := by
  refine ⟨?_, by with_unfolding_all decide, by with_unfolding_all decide,
    by with_unfolding_all decide, by with_unfolding_all decide⟩
  intro σ R s cdt lmd ldd daily afh afc kat stoch
  obtain ⟨af, bf, cf, df, s4, heq⟩ := computeResults_eq_of_deferrals R cdt lmd ldd
    daily afh afc kat none stoch s (false, "") (false, "") rfl rfl
  rw [heq]
  constructor <;> simp [resultOf, Except.toOption, a_check_status]

end THY
